import Mathlib

/-!
Verification development for the SQL tutor engine (`src/tutor.py`, class
`SQLTutor`).  The Python code is shallowly embedded: the sqlite cursor, the
sentence-transformer embedder and the LLM client are external capabilities and
appear as function parameters; Python floats are idealised as exact rationals;
Python exceptions that a function catches (or raises) become `Except`/`Option`
values.  Each embedded definition keeps the name of the Python method it
translates.
-/

/-! ### Values in result rows

`cursor.fetchall()` returns rows as tuples of Python objects.  For an sqlite
database these are ints, floats, strings or `None`.  Floats are idealised as
rationals. -/

inductive PyVal where
  | int (i : ℤ)
  | real (q : ℚ)
  | text (s : String)
  | null
  deriving DecidableEq, Repr

abbrev Row := List PyVal

/-- Python `==` on row entries: numeric values compare by value across
`int`/`float` (`1 == 1.0` is `True`), strings compare as strings,
`None == None` is `True`, and any cross-type comparison is `False`. -/
def pyEq : PyVal → PyVal → Bool
  | .int i, .int j => decide ((i : ℚ) = (j : ℚ))
  | .int i, .real q => decide ((i : ℚ) = q)
  | .real q, .int i => decide (q = (i : ℚ))
  | .real p, .real q => decide (p = q)
  | .text s, .text t => decide (s = t)
  | .null, .null => true
  | _, _ => false

/-- Python `<` on row entries.  Numbers compare numerically (across
`int`/`float`), strings lexicographically; every other pair —
`None` against anything, or a number against a string — raises `TypeError`,
modelled as `none`. -/
def pyLt : PyVal → PyVal → Option Bool
  | .int i, .int j => some (decide ((i : ℚ) < (j : ℚ)))
  | .int i, .real q => some (decide ((i : ℚ) < q))
  | .real q, .int i => some (decide (q < (i : ℚ)))
  | .real p, .real q => some (decide (p < q))
  | .text s, .text t => some (decide (s < t))
  | _, _ => none

/-- Python tuple `<` (used when `sorted` compares two rows): scan for the
first position where the entries are not `==`, and compare there with `<`;
if one tuple is a strict prefix of the other the shorter is smaller.
A `TypeError` from the entry comparison propagates (`none`). -/
def rowLt : Row → Row → Option Bool
  | [], [] => some false
  | [], _ :: _ => some true
  | _ :: _, [] => some false
  | a :: as, b :: bs => if pyEq a b then rowLt as bs else pyLt a b

/-- Python tuple `==`: same length and entrywise `==`. -/
def rowEq : Row → Row → Bool
  | [], [] => true
  | a :: as, b :: bs => pyEq a b && rowEq as bs
  | _, _ => false

/-- Python list `==` on lists of rows: same length and elementwise tuple
`==`.  This is the comparison `sorted_results1 == sorted_results2` performs. -/
def listRowEq : List Row → List Row → Bool
  | [], [] => true
  | r :: rs, t :: ts => rowEq r t && listRowEq rs ts
  | _, _ => false

/-- One insertion step of the model of Python `sorted`: place `a` into the
already position-sorted list, before the first element `b` with `a < b`.
A `TypeError` raised by a comparison propagates (`none`). -/
def pyInsert (a : Row) : List Row → Option (List Row)
  | [] => some [a]
  | b :: bs =>
    match rowLt a b with
    | none => none
    | some true => some (a :: b :: bs)
    | some false => (pyInsert a bs).map (b :: ·)

/-- Tail of the model of Python `sorted`: fold the remaining rows into the
accumulator by insertion. -/
def pySortedAux : List Row → List Row → Option (List Row)
  | acc, [] => some acc
  | acc, a :: as =>
    match pyInsert a acc with
    | none => none
    | some acc' => pySortedAux acc' as

/-- Model of Python `sorted` on a list of rows.  CPython uses Timsort; the
model is a comparison sort over the same (partial) row order, with
`TypeError` propagated as `none`.  On inputs whose rows are pairwise
comparable both succeed and agree up to the tuple-`==` used afterwards by
`compare_results` (ties under the order are exactly tuple-`==` there); on a
two-element incomparable list both raise. -/
def pySorted (l : List Row) : Option (List Row) :=
  pySortedAux [] l

/-! ### Query Executor -/

/-- What one `cursor.execute(query); cursor.fetchall()` round produces when
it does not raise: the fetched rows and `cursor.description` (the column
names; `none` for statements that yield no description). -/
structure DbOutcome where
  rows : List Row
  description : Option (List String)
  deriving Repr, DecidableEq

/-- The external database capability: a query either yields a `DbOutcome` or
raises, with `str(e)` as the error payload. -/
abbrev Db := String → Except String DbOutcome

/-- The 4-tuple `(success, results, columns, error_message)` returned by
`SQLTutor.execute_query`. -/
structure ExecResult where
  success : Bool
  results : Option (List Row)
  columns : Option (List String)
  error : Option String
  deriving Repr, DecidableEq

/-- `SQLTutor.execute_query` (tutor.py lines 144-157): run the query under a
`try`, and turn any exception into `(False, None, None, str(e))`; on success
return `(True, results, columns, None)` where `columns` is the list of names
from `cursor.description`, or `[]` when there is no description. -/
def execute_query (db : Db) (query : String) : ExecResult :=
  match db query with
  | .ok o => ⟨true, some o.rows, some (o.description.getD []), none⟩
  | .error e => ⟨false, none, none, some e⟩

/-- Helper for `compare_results`: Python `sorted(results) if results else []`
(`results` is a list here, falsy exactly when empty). -/
def sortedOrEmpty (l : List Row) : Option (List Row) :=
  if l.isEmpty then some [] else pySorted l

/-- `SQLTutor.compare_results` (tutor.py lines 159-171): execute both
queries; if either fails return `False`; otherwise sort both row lists and
return `sorted1 == sorted2 and cols1 == cols2`.  A `TypeError` raised by
`sorted` (incomparable rows) is not caught in the source and is modelled as
`none`. -/
def compare_results (db : Db) (user_query solution_query : String) : Option Bool :=
  let r1 := execute_query db user_query
  let r2 := execute_query db solution_query
  if !r1.success || !r2.success then some false
  else
    match sortedOrEmpty (r1.results.getD []) with
    | none => none
    | some s1 =>
      match sortedOrEmpty (r2.results.getD []) with
      | none => none
      | some s2 => some (listRowEq s1 s2 && decide (r1.columns = r2.columns))

/-! ### Similarity Scorer -/

/-- Result of the numpy cosine computation.  For embedding vectors `v`, `w`
with sums of squares `s1`, `s2`, the source computes
`dot(v,w) / (norm(v) * norm(w))` and `norm(v) * norm(w) = sqrt (s1 * s2)`,
so the exact value is `(dot/(s1*s2)) * sqrt (s1*s2)`, recorded as
`val (dot/(s1*s2)) (s1*s2)` (meaning: `coeff * sqrt radicand`).  When the
denominator is zero the numerator `dot` is zero as well (a vector with zero
sum of squares is the zero vector, see `dot_eq_zero_of_sumSq_eq_zero`), and
IEEE `0.0 / 0.0` is NaN: constructor `nan`. -/
inductive SimResult where
  | val (coeff radicand : ℚ)
  | nan
  deriving DecidableEq, Repr

/-- Dot product of two embedding vectors (`np.dot`); extra coordinates of a
longer vector are ignored (the embedder returns fixed-dimension vectors). -/
def dot : List ℚ → List ℚ → ℚ
  | a :: as, b :: bs => a * b + dot as bs
  | _, _ => 0

/-- Sum of squares of a vector, i.e. the square of `np.linalg.norm`. -/
def sumSq (v : List ℚ) : ℚ := dot v v

/-- The cosine-similarity expression of tutor.py lines 188-190:
`np.dot(e0, e1) / (np.linalg.norm(e0) * np.linalg.norm(e1))`.  There is no
guard on the denominator. -/
def cosineSimilarity (v w : List ℚ) : SimResult :=
  let d := dot v w
  let s := sumSq v * sumSq w
  if s = 0 then .nan else .val (d / s) s

/-- The external embedding capability (`self.embedder.encode`), mapping a
text to a vector. -/
abbrev Embedder := String → List ℚ

/-- `SQLTutor.calculate_query_similarity` (tutor.py lines 173-192):
normalise both queries with `.lower().strip()`, embed them, and return their
cosine similarity. -/
def calculate_query_similarity (embedder : Embedder) (query1 query2 : String) :
    SimResult :=
  let q1 := query1.toLower.trim
  let q2 := query2.toLower.trim
  cosineSimilarity (embedder q1) (embedder q2)

/-! ### Hint Policy -/

/-- An exercise record as loaded from `queries.json` (validated shape). -/
structure Exercise where
  id : String
  question : String
  solution : String
  concepts : List String
  hint : Option String
  deriving Repr, DecidableEq

/-- The external advisor capability (`self.client.messages.create` plus the
text extraction): a prompt either yields text or raises with `str(e)`. -/
abbrev Advisor := String → Except String String

/-- The prompt `get_progressive_hint` composes for the advisor (tutor.py
lines 219-234).  Decimal formatting of the score (`:.2f`) is abstracted by
`toString`. -/
def hintPrompt (query_data : Exercise) (user_query : String) (score : ℚ)
    (attempt : ℕ) : String :=
  "You are an SQL tutor helping a student who is struggling with a problem.\n\n"
    ++ "Question: " ++ query_data.question ++ "\n"
    ++ "Required concepts: " ++ String.intercalate ", " query_data.concepts ++ "\n"
    ++ "Expected solution: " ++ query_data.solution ++ "\n"
    ++ "Student\x27s query: " ++ user_query ++ "\n"
    ++ "Similarity score: " ++ toString score
    ++ " (0=completely different, 1=identical)\n"
    ++ "Attempt number: " ++ toString attempt ++ "\n\n"
    ++ "Based on the similarity score give a concise, encouraging hint "
    ++ "(2-3 sentences max) that helps them get closer without revealing "
    ++ "the full solution."

/-- `SQLTutor.get_progressive_hint` (tutor.py lines 194-244).  Without a
client, a fixed table keyed on the score (the Python float literals `0.8`,
`0.6`, `0.4` are the rationals `4/5`, `3/5`, `2/5` here).  With a client, the
advisor's reply is returned verbatim; if the advisor call raises, the
`except` branch returns the string `"Error generating hint: " ++ str(e)`. -/
def get_progressive_hint (client : Option Advisor) (query_data : Exercise)
    (user_query : String) (similarity_score : ℚ) (attempt : ℕ) : String :=
  match client with
  | none =>
    if similarity_score > 4/5 then
      "You\x27re very close! Check your column names or table joins."
    else if similarity_score > 3/5 then
      "You\x27re on the right track. Review the required columns and conditions."
    else if similarity_score > 2/5 then
      "You have some correct elements. Check the SQL clauses you\x27re using."
    else
      "Try a different approach. Remember the concepts: "
        ++ String.intercalate ", " query_data.concepts
  | some advisor =>
    match advisor (hintPrompt query_data user_query similarity_score attempt) with
    | .ok text => text
    | .error e => "Error generating hint: " ++ e

/-! ### Session State Machine -/

/-- Difficulty tiers of `self.completed_exercises` /
`self.queries` (tutor.py lines 40-44). -/
inductive Tier where
  | beginner
  | intermediate
  | advanced
  deriving DecidableEq, Repr

/-- The `self.completed_exercises` dict: one Python set of exercise ids per
tier. -/
structure CompletedSets where
  beginner : Finset String
  intermediate : Finset String
  advanced : Finset String
  deriving DecidableEq

/-- The set stored for one tier. -/
def CompletedSets.get (cs : CompletedSets) : Tier → Finset String
  | .beginner => cs.beginner
  | .intermediate => cs.intermediate
  | .advanced => cs.advanced

/-- `self.completed_exercises[level].add(query_data['id'])` (tutor.py line
348): Python set `add`. -/
def CompletedSets.mark (cs : CompletedSets) (level : Tier) (exid : String) :
    CompletedSets :=
  match level with
  | .beginner => { cs with beginner := insert exid cs.beginner }
  | .intermediate => { cs with intermediate := insert exid cs.intermediate }
  | .advanced => { cs with advanced := insert exid cs.advanced }

/-- Number of completed exercises recorded for a tier
(`len(self.completed_exercises[level])`). -/
def CompletedSets.count (cs : CompletedSets) (level : Tier) : ℕ :=
  (cs.get level).card

/-- `max_attempts` (tutor.py line 292): a fixed constant. -/
def max_attempts : ℕ := 3

/-- The interactive inputs one loop iteration of `practice_session` may
consume: the query typed at the prompt (already `.strip()`-ed), the `1/2/3`
menu choice, and the `y/n` answer to the retry question asked after choice
`3`.  Fields that an iteration does not reach are simply unread. -/
structure AttemptInput where
  query : String
  choice : String
  retry : String
  deriving Repr, DecidableEq

/-- How the modelled session ends: `finished` covers every `break` and every
normal exit of the `while` loop; `outOfInput` marks an input list too short
for the control path taken (the real program would block on `input()`);
`typeError` marks the uncaught `TypeError` that `compare_results` can raise
from `sorted` on rows with incomparable values. -/
inductive SessionOutcome where
  | finished
  | outOfInput
  | typeError
  deriving DecidableEq, Repr

/-- Observable result of one `practice_session` run: the final value of the
loop counter `attempt`, whether the reference solution was printed
(`💡 Solution:`), whether an attempt was judged correct, the completion sets
after the session, and how the run ended. -/
structure SessionResult where
  attemptsUsed : ℕ
  revealed : Bool
  solvedCorrect : Bool
  completed : CompletedSets
  outcome : SessionOutcome
  deriving DecidableEq

/-- The attempt loop of `SQLTutor.practice_session` (tutor.py lines
292-423), one recursive call per loop iteration.  Printing, the similarity
score shown on screen, `get_progressive_hint` and `get_ai_feedback` outputs
are display-only in the source (no control flow reads them) and are not
tracked.  Control flow is translated branch by branch:
syntax-error path (lines 303-337), correct path (lines 342-357, which marks
the exercise completed), incorrect path with remaining attempts (lines
378-408) and the exhausted path (lines 409-423, which reveals the
solution). -/
def sessionGo (db : Db) (query_data : Exercise) (level : Tier)
    (cs : CompletedSets) (attempt : ℕ) : List AttemptInput → SessionResult
  | [] =>
    if attempt < max_attempts then ⟨attempt, false, false, cs, .outOfInput⟩
    else ⟨attempt, false, false, cs, .finished⟩
  | i :: rest =>
    if attempt < max_attempts then
      let r := execute_query db i.query
      if r.success = false then
        -- syntax-error branch: similarity and hint are displayed, then the menu
        if i.choice = "2" then ⟨attempt + 1, true, false, cs, .finished⟩
        else if i.choice = "3" then
          if i.retry = "y" then sessionGo db query_data level cs (attempt + 1) rest
          else ⟨attempt + 1, false, false, cs, .finished⟩
        else sessionGo db query_data level cs (attempt + 1) rest
      else
        match compare_results db i.query query_data.solution with
        | none => ⟨attempt + 1, false, false, cs, .typeError⟩
        | some true =>
          ⟨attempt + 1, false, true, cs.mark level query_data.id, .finished⟩
        | some false =>
          if attempt + 1 < max_attempts then
            -- progressive hint displayed, then the menu
            if i.choice = "2" then ⟨attempt + 1, true, false, cs, .finished⟩
            else if i.choice = "3" then
              if i.retry = "y" then
                sessionGo db query_data level cs (attempt + 1) rest
              else ⟨attempt + 1, false, false, cs, .finished⟩
            else sessionGo db query_data level cs (attempt + 1) rest
          else ⟨attempt + 1, true, false, cs, .finished⟩
    else ⟨attempt, false, false, cs, .finished⟩

/-- One run of `SQLTutor.practice_session` on a given exercise: the loop of
`sessionGo` started with `attempt = 0`.  Exercise selection
(`get_query_by_level`), the optional pre-loop hint prompt and the trailing
recursion into a fresh session on `Try another question? y` are outside the
attempt loop and outside this model. -/
def practice_session (db : Db) (query_data : Exercise) (level : Tier)
    (cs : CompletedSets) (inputs : List AttemptInput) : SessionResult :=
  sessionGo db query_data level cs 0 inputs

/-! ### Canonical forms and comparability (proof tooling) -/

/-- Canonical representative of a value under Python `==`: `int`s are read
as the equal `float`.  `pyEq a b` holds exactly when `canon a = canon b`. -/
def canon : PyVal → PyVal
  | .int i => .real (i : ℚ)
  | v => v

/-- Canonical form of a row. -/
def canonRow (r : Row) : Row := r.map canon

/-- Order used for sortedness statements: `rowLe r r'` says the comparison
`r' < r` was made and came out `False`. -/
def rowLe (r r' : Row) : Prop := rowLt r' r = some false

/-- Decidable test that every pair of rows of a list is order-comparable
(no `TypeError` possible between any two of them). -/
def pairwiseComparable (l : List Row) : Bool :=
  l.all fun a => l.all fun b => (rowLt a b).isSome

/-! ### Specification-side comparator (for claim C2)

The specification (spec.md §4.1) describes the comparator as working on
STRINGIFIED values: rows are compared as multisets under row-wise
lexicographic comparison of the rendered strings.  The following definitions
follow the spec's words, not the source, and exist only to be compared with
`compare_results`. -/

/-- Python `str` of a value, as the spec's stringification: `str(1) = "1"`,
`str(1.0) = "1.0"` (rendering of non-integral floats is abstracted),
`str(None) = "None"`. -/
def pyStr : PyVal → String
  | .int i => toString i
  | .real q => if q.den = 1 then toString q.num ++ ".0" else toString q
  | .text s => s
  | .null => "None"

/-- A row rendered to strings. -/
def strRow (r : Row) : List String := r.map pyStr

/-- Modelled from the spec (§4.1): two executed results are equivalent iff
both succeeded, their row multisets are equal after stringification, and
their column sequences are equal position by position. -/
def spec_equivalent (r1 r2 : ExecResult) : Bool :=
  r1.success && r2.success
    && decide
      ((((r1.results.getD []).map strRow : List (List String)) : Multiset (List String))
        = (((r2.results.getD []).map strRow : List (List String)) : Multiset (List String)))
    && decide (r1.columns = r2.columns)

/-! ### Concrete fixtures used by witnesses and counterexamples -/

/-- A database on which every query fails (e.g. a syntax error). -/
def dbFail : Db := fun _ => .error "near SELECT: syntax error"

/-- Two successful queries returning the integer `1` and the float `1.0`. -/
def dbNum : Db := fun q =>
  if q = "u" then .ok ⟨[[.int 1]], some ["x"]⟩
  else if q = "s" then .ok ⟨[[.real 1]], some ["x"]⟩
  else .error "no such table"

/-- Two successful queries whose (identical up to row order) results mix
`NULL` and an integer in one column. -/
def dbNull : Db := fun q =>
  if q = "u" then .ok ⟨[[.null], [.int 1]], some ["x"]⟩
  else if q = "s" then .ok ⟨[[.int 1], [.null]], some ["x"]⟩
  else .error "no such table"

/-- Two successful queries returning the same two rows in different order. -/
def dbPerm : Db := fun q =>
  if q = "u" then .ok ⟨[[.int 1], [.int 2]], some ["x"]⟩
  else if q = "s" then .ok ⟨[[.int 2], [.int 1]], some ["x"]⟩
  else .error "no such table"

/-- A database for session runs: the reference solution `SELECT 1` and a
wrong but executable attempt `SELECT 2`. -/
def dbSess : Db := fun q =>
  if q = "SELECT 1" then .ok ⟨[[.int 1]], some ["1"]⟩
  else if q = "SELECT 2" then .ok ⟨[[.int 2]], some ["2"]⟩
  else .error "no such column"

/-- A sample exercise. -/
def ex0 : Exercise :=
  ⟨"b1", "List all ids", "SELECT 1", ["SELECT"], none⟩

/-- An advisor whose call always raises. -/
def badAdvisor : Advisor := fun _ => .error "API timeout"

/-- Empty completion sets. -/
def cs0 : CompletedSets := ⟨∅, ∅, ∅⟩

/-- A session input: wrong query, menu choice `1` (try again). -/
def inputRetry : AttemptInput := ⟨"SELECT 2", "1", "n"⟩


theorem canon_canon (v : PyVal) : canon (canon v) = canon v := by
  cases v <;> rfl

theorem pyEq_canon (a b : PyVal) : pyEq (canon a) (canon b) = pyEq a b := by
  cases a <;> cases b <;> rfl

theorem pyLt_canon (a b : PyVal) : pyLt (canon a) (canon b) = pyLt a b := by
  cases a <;> cases b <;> rfl

theorem pyEq_iff_canon {a b : PyVal} : pyEq a b = true ↔ canon a = canon b := by
  cases a <;> cases b <;> simp [pyEq, canon]

theorem pyLt_asymm {a b : PyVal} (h : pyLt a b = some true) :
    pyLt b a = some false := by
  cases a <;> cases b <;>
    simp only [pyLt, Option.some.injEq, decide_eq_true_eq,
      decide_eq_false_iff_not, reduceCtorEq] at h ⊢ <;>
    exact lt_asymm h

theorem pyLt_trans {a b c : PyVal} (h1 : pyLt a b = some true)
    (h2 : pyLt b c = some true) : pyLt a c = some true := by
  cases a <;> cases b <;> cases c <;>
    simp only [pyLt, Option.some.injEq, decide_eq_true_eq,
      reduceCtorEq] at h1 h2 ⊢ <;>
    exact lt_trans h1 h2

theorem canon_eq_of_pyLt_false {a b : PyVal} (h1 : pyLt a b = some false)
    (h2 : pyLt b a = some false) : canon a = canon b := by
  cases a <;> cases b <;>
    simp only [pyLt, Option.some.injEq, decide_eq_false_iff_not, not_lt,
      reduceCtorEq, canon, PyVal.real.injEq, PyVal.text.injEq] at h1 h2 ⊢ <;>
    exact le_antisymm h2 h1

theorem pyEq_symm (a b : PyVal) : pyEq b a = pyEq a b := by
  by_cases h : pyEq a b = true
  · rw [h, pyEq_iff_canon.mpr ((pyEq_iff_canon.mp h).symm)]
  · have h' : pyEq b a = false := by
      rw [← Bool.not_eq_true]
      exact fun hc => h (pyEq_iff_canon.mpr ((pyEq_iff_canon.mp hc).symm))
    rw [Bool.not_eq_true] at h
    rw [h', h]

theorem canonRow_canonRow (r : Row) : canonRow (canonRow r) = canonRow r := by
  simp only [canonRow, List.map_map]
  exact List.map_congr_left fun a _ => canon_canon a

theorem rowLt_canonRow (r r' : Row) : rowLt (canonRow r) (canonRow r') = rowLt r r' := by
  induction r generalizing r' with
  | nil => cases r' <;> rfl
  | cons a as ih =>
    cases r' with
    | nil => rfl
    | cons b bs =>
      simp only [canonRow, List.map_cons, rowLt, pyEq_canon, pyLt_canon]
      by_cases hab : pyEq a b = true
      · simp only [hab, if_true]
        exact ih bs
      · simp only [Bool.not_eq_true] at hab
        simp only [hab, Bool.false_eq_true, if_false]

theorem rowEq_iff_canonRow {r r' : Row} : rowEq r r' = true ↔ canonRow r = canonRow r' := by
  induction r generalizing r' with
  | nil => cases r' <;> simp [rowEq, canonRow]
  | cons a as ih =>
    cases r' with
    | nil => simp [rowEq, canonRow]
    | cons b bs =>
      simp [rowEq, canonRow, Bool.and_eq_true, pyEq_iff_canon, canon, ih]

theorem listRowEq_iff {l l' : List Row} :
    listRowEq l l' = true ↔ l.map canonRow = l'.map canonRow := by
  induction l generalizing l' with
  | nil => cases l' <;> simp [listRowEq]
  | cons r rs ih =>
    cases l' with
    | nil => simp [listRowEq]
    | cons t ts =>
      simp [listRowEq, Bool.and_eq_true, rowEq_iff_canonRow, ih]

theorem pyLt_congr_left {a b : PyVal} (h : canon a = canon b) (c : PyVal) :
    pyLt a c = pyLt b c := by
  rw [← pyLt_canon a c, h, pyLt_canon]

theorem pyLt_congr_right (c : PyVal) {a b : PyVal} (h : canon a = canon b) :
    pyLt c a = pyLt c b := by
  rw [← pyLt_canon c a, h, pyLt_canon]

theorem rowLt_asymm {r r' : Row} (h : rowLt r r' = some true) :
    rowLt r' r = some false := by
  induction r generalizing r' with
  | nil =>
    cases r' with
    | nil => simp [rowLt] at h
    | cons b bs => rfl
  | cons a as ih =>
    cases r' with
    | nil => simp [rowLt] at h
    | cons b bs =>
      simp only [rowLt] at h ⊢
      by_cases hab : pyEq a b = true
      · have hba : pyEq b a = true := by rw [pyEq_symm]; exact hab
        rw [if_pos hab] at h
        rw [if_pos hba]
        exact ih h
      · have hba : ¬ pyEq b a = true := by rw [pyEq_symm]; exact hab
        rw [if_neg hab] at h
        rw [if_neg hba]
        exact pyLt_asymm h

theorem rowLt_trans {r1 r2 r3 : Row} (h1 : rowLt r1 r2 = some true)
    (h2 : rowLt r2 r3 = some true) : rowLt r1 r3 = some true := by
  induction r1 generalizing r2 r3 with
  | nil =>
    cases r2 with
    | nil => simp [rowLt] at h1
    | cons b bs =>
      cases r3 with
      | nil => simp [rowLt] at h2
      | cons c cs => rfl
  | cons a as ih =>
    cases r2 with
    | nil => simp [rowLt] at h1
    | cons b bs =>
      cases r3 with
      | nil => simp [rowLt] at h2
      | cons c cs =>
        simp only [rowLt] at h1 h2 ⊢
        by_cases hab : pyEq a b = true <;> by_cases hbc : pyEq b c = true
        · have hac : pyEq a c = true :=
            pyEq_iff_canon.mpr ((pyEq_iff_canon.mp hab).trans (pyEq_iff_canon.mp hbc))
          rw [if_pos hab] at h1
          rw [if_pos hbc] at h2
          rw [if_pos hac]
          exact ih h1 h2
        · have hcanon : canon a = canon b := pyEq_iff_canon.mp hab
          rw [if_pos hab] at h1
          rw [if_neg hbc] at h2
          have hac : ¬ pyEq a c = true := fun hc =>
            hbc (pyEq_iff_canon.mpr (hcanon.symm.trans (pyEq_iff_canon.mp hc)))
          rw [if_neg hac, pyLt_congr_left hcanon]
          exact h2
        · have hcanon : canon b = canon c := pyEq_iff_canon.mp hbc
          rw [if_neg hab] at h1
          rw [if_pos hbc] at h2
          have hac : ¬ pyEq a c = true := fun hc =>
            hab (pyEq_iff_canon.mpr ((pyEq_iff_canon.mp hc).trans hcanon.symm))
          rw [if_neg hac, ← pyLt_congr_right a hcanon]
          exact h1
        · rw [if_neg hab] at h1
          rw [if_neg hbc] at h2
          have hac : ¬ pyEq a c = true := by
            intro hc
            have heq := pyLt_congr_left (pyEq_iff_canon.mp hc) b
            rw [pyLt_asymm h2, h1] at heq
            simp at heq
          rw [if_neg hac]
          exact pyLt_trans h1 h2

theorem canonRow_eq_of_rowLt_false {r r' : Row} (h1 : rowLt r r' = some false)
    (h2 : rowLt r' r = some false) : canonRow r = canonRow r' := by
  induction r generalizing r' with
  | nil =>
    cases r' with
    | nil => rfl
    | cons b bs => simp [rowLt] at h1
  | cons a as ih =>
    cases r' with
    | nil => simp [rowLt] at h2
    | cons b bs =>
      simp only [rowLt] at h1 h2
      by_cases hab : pyEq a b = true
      · have hba : pyEq b a = true := by rw [pyEq_symm]; exact hab
        rw [if_pos hab] at h1
        rw [if_pos hba] at h2
        simp only [canonRow, List.map_cons, List.cons.injEq]
        exact ⟨pyEq_iff_canon.mp hab, ih h1 h2⟩
      · have hba : ¬ pyEq b a = true := by rw [pyEq_symm]; exact hab
        rw [if_neg hab] at h1
        rw [if_neg hba] at h2
        exact absurd (pyEq_iff_canon.mpr (canon_eq_of_pyLt_false h1 h2)) hab

theorem pyInsert_eq_some {a : Row} {l : List Row}
    (h : ∀ b ∈ l, (rowLt a b).isSome) : ∃ m, pyInsert a l = some m := by
  induction l with
  | nil => exact ⟨[a], rfl⟩
  | cons b bs ih =>
    rcases hlt : rowLt a b with _ | lt
    · exact absurd (h b (by simp)) (by simp [hlt])
    · cases lt
      · obtain ⟨m, hm⟩ := ih fun x hx => h x (by simp [hx])
        exact ⟨b :: m, by simp [pyInsert, hlt, hm]⟩
      · exact ⟨a :: b :: bs, by simp [pyInsert, hlt]⟩

theorem pyInsert_perm {a : Row} {l m : List Row} (h : pyInsert a l = some m) :
    m.Perm (a :: l) := by
  induction l generalizing m with
  | nil =>
    simp [pyInsert] at h
    subst h
    exact List.Perm.refl _
  | cons b bs ih =>
    rcases hlt : rowLt a b with _ | lt
    · simp [pyInsert, hlt] at h
    · cases lt
      · simp only [pyInsert, hlt] at h
        rcases hm' : pyInsert a bs with _ | m'
        · rw [hm'] at h
          simp at h
        · rw [hm'] at h
          simp at h
          subst h
          exact (List.Perm.cons b (ih hm')).trans (List.Perm.swap a b bs)
      · simp [pyInsert, hlt] at h
        subst h
        exact List.Perm.refl _

theorem pyInsert_pairwise {a : Row} {l m : List Row}
    (hc : ∀ b ∈ l, (rowLt a b).isSome ∧ (rowLt b a).isSome)
    (hp : List.Pairwise rowLe l) (h : pyInsert a l = some m) :
    List.Pairwise rowLe m := by
  induction l generalizing m with
  | nil =>
    simp [pyInsert] at h
    subst h
    simp
  | cons b bs ih =>
    rcases hlt : rowLt a b with _ | lt
    · simp [pyInsert, hlt] at h
    · cases lt
      · simp only [pyInsert, hlt] at h
        rcases hm' : pyInsert a bs with _ | m'
        · rw [hm'] at h
          simp at h
        · rw [hm'] at h
          simp at h
          subst h
          rw [List.pairwise_cons] at hp ⊢
          refine ⟨?_, ih (fun x hx => hc x (by simp [hx])) hp.2 hm'⟩
          intro x hxm
          rcases List.mem_cons.mp ((pyInsert_perm hm').mem_iff.mp hxm) with rfl | hxbs
          · exact hlt
          · exact hp.1 x hxbs
      · simp [pyInsert, hlt] at h
        subst h
        rw [List.pairwise_cons] at hp
        rw [List.pairwise_cons]
        refine ⟨?_, List.pairwise_cons.mpr hp⟩
        intro x hx
        rcases List.mem_cons.mp hx with rfl | hxbs
        · exact rowLt_asymm hlt
        · have hxa := (hc x (by simp [hxbs])).2
          rcases hval : rowLt x a with _ | v
          · rw [hval] at hxa
            simp at hxa
          · cases v
            · exact hval
            · exfalso
              have htr := rowLt_trans hval hlt
              have hle : rowLt x b = some false := hp.1 x hxbs
              rw [hle] at htr
              simp at htr

theorem pySortedAux_spec :
    ∀ pending acc : List Row,
      (∀ a ∈ acc ++ pending, ∀ b ∈ acc ++ pending, (rowLt a b).isSome) →
      List.Pairwise rowLe acc →
      ∃ s, pySortedAux acc pending = some s ∧ s.Perm (acc ++ pending) ∧
        List.Pairwise rowLe s := by
  intro pending
  induction pending with
  | nil =>
    intro acc hcomp hpair
    exact ⟨acc, rfl, by simp, hpair⟩
  | cons a as ih =>
    intro acc hcomp hpair
    have hmem_a : a ∈ acc ++ a :: as := by simp
    obtain ⟨acc', hacc'⟩ :=
      pyInsert_eq_some (a := a) (l := acc)
        (fun b hb => hcomp a hmem_a b (by simp [hb]))
    have hperm' : acc'.Perm (a :: acc) := pyInsert_perm hacc'
    have hpair' : List.Pairwise rowLe acc' :=
      pyInsert_pairwise
        (fun b hb => ⟨hcomp a hmem_a b (by simp [hb]),
          hcomp b (by simp [hb]) a hmem_a⟩) hpair hacc'
    have hsub : ∀ x ∈ acc' ++ as, x ∈ acc ++ a :: as := by
      intro x hx
      rcases List.mem_append.mp hx with hx1 | hx2
      · rcases List.mem_cons.mp (hperm'.mem_iff.mp hx1) with rfl | hxacc
        · simp
        · simp [hxacc]
      · simp [hx2]
    obtain ⟨s, hs, hsperm, hspair⟩ :=
      ih acc' (fun x hx y hy => hcomp x (hsub x hx) y (hsub y hy)) hpair'
    refine ⟨s, ?_, ?_, hspair⟩
    · simp only [pySortedAux, hacc']
      exact hs
    · exact hsperm.trans ((hperm'.append_right as).trans List.perm_middle.symm)

theorem pySorted_spec {l : List Row}
    (h : ∀ a ∈ l, ∀ b ∈ l, (rowLt a b).isSome) :
    ∃ s, pySorted l = some s ∧ s.Perm l ∧ List.Pairwise rowLe s := by
  obtain ⟨s, hs, hperm, hpair⟩ := pySortedAux_spec l [] (by simpa using h) (by simp)
  exact ⟨s, hs, by simpa using hperm, hpair⟩

theorem pyInsert_canonRow (a : Row) (l : List Row) :
    pyInsert (canonRow a) (l.map canonRow) =
      (pyInsert a l).map (List.map canonRow) := by
  induction l with
  | nil => rfl
  | cons b bs ih =>
    simp only [List.map_cons, pyInsert, rowLt_canonRow]
    rcases hlt : rowLt a b with _ | lt
    · simp [hlt]
    · cases lt
      · simp only [hlt]
        rw [ih, Option.map_map, Option.map_map]
        rfl
      · simp [hlt]

theorem pySortedAux_canonRow (pending : List Row) :
    ∀ acc : List Row,
      pySortedAux (acc.map canonRow) (pending.map canonRow) =
        (pySortedAux acc pending).map (List.map canonRow) := by
  induction pending with
  | nil => intro acc; rfl
  | cons a as ih =>
    intro acc
    simp only [List.map_cons, pySortedAux, pyInsert_canonRow]
    rcases hacc : pyInsert a acc with _ | acc'
    · simp [hacc]
    · simp only [hacc, Option.map_some]
      exact ih acc'

theorem pySorted_canonRow (l : List Row) :
    pySorted (l.map canonRow) = (pySorted l).map (List.map canonRow) := by
  simpa using pySortedAux_canonRow l []

theorem sorted_perm_eq :
    ∀ {l1 l2 : List Row}, (∀ r ∈ l1, canonRow r = r) → l1.Perm l2 →
      List.Pairwise rowLe l1 → List.Pairwise rowLe l2 → l1 = l2 := by
  intro l1
  induction l1 with
  | nil =>
    intro l2 _ hperm _ _
    exact (hperm.symm.eq_nil).symm
  | cons a t1 ih =>
    intro l2 hcanon hperm h1 h2
    cases l2 with
    | nil =>
      have := hperm.eq_nil
      simp at this
    | cons b t2 =>
      by_cases hab : a = b
      · subst hab
        have htl :=
          ih (fun r hr => hcanon r (by simp [hr])) hperm.cons_inv
            (List.pairwise_cons.mp h1).2 (List.pairwise_cons.mp h2).2
        rw [htl]
      · exfalso
        have ha2 : a ∈ b :: t2 := hperm.mem_iff.mp (by simp)
        have hat2 : a ∈ t2 := by
          rcases List.mem_cons.mp ha2 with h | h
          · exact absurd h hab
          · exact h
        have hb1 : b ∈ a :: t1 := hperm.symm.mem_iff.mp (by simp)
        have hbt1 : b ∈ t1 := by
          rcases List.mem_cons.mp hb1 with h | h
          · exact absurd h.symm hab
          · exact h
        have h1ab : rowLt b a = some false := (List.pairwise_cons.mp h1).1 b hbt1
        have h2ba : rowLt a b = some false := (List.pairwise_cons.mp h2).1 a hat2
        have hcan : canonRow a = canonRow b := canonRow_eq_of_rowLt_false h2ba h1ab
        have hacanon : canonRow a = a := hcanon a (by simp)
        have hbcanon : canonRow b = b := hcanon b (by simp [hbt1])
        exact hab (by rw [← hacanon, ← hbcanon, hcan])

theorem rowLe_canonRow {r r' : Row} (h : rowLe r r') :
    rowLe (canonRow r) (canonRow r') := by
  unfold rowLe at h ⊢
  rw [rowLt_canonRow]
  exact h

theorem perm_pySorted_listRowEq {rows1 rows2 : List Row}
    (hpc : ∀ a ∈ rows1, ∀ b ∈ rows1, (rowLt a b).isSome)
    (hperm : rows2.Perm rows1) :
    ∃ s1 s2, pySorted rows1 = some s1 ∧ pySorted rows2 = some s2 ∧
      listRowEq s1 s2 = true := by
  have hpc2 : ∀ a ∈ rows2, ∀ b ∈ rows2, (rowLt a b).isSome := fun a ha b hb =>
    hpc a (hperm.subset ha) b (hperm.subset hb)
  obtain ⟨s1, hs1, hp1, hq1⟩ := pySorted_spec hpc
  obtain ⟨s2, hs2, hp2, hq2⟩ := pySorted_spec hpc2
  refine ⟨s1, s2, hs1, hs2, ?_⟩
  rw [listRowEq_iff]
  apply sorted_perm_eq
  · intro r hr
    obtain ⟨r0, _, rfl⟩ := List.mem_map.mp hr
    exact canonRow_canonRow r0
  · exact ((hp1.trans (hperm.symm.trans hp2.symm))).map canonRow
  · exact hq1.map canonRow fun a b hab => rowLe_canonRow hab
  · exact hq2.map canonRow fun a b hab => rowLe_canonRow hab

theorem pairwiseComparable_iff {l : List Row} :
    pairwiseComparable l = true ↔ ∀ a ∈ l, ∀ b ∈ l, (rowLt a b).isSome := by
  simp [pairwiseComparable, List.all_eq_true]

theorem sortedOrEmpty_eq (l : List Row) : sortedOrEmpty l = pySorted l := by
  cases l <;> rfl

theorem compare_results_some {db : Db} {u s : String} {rows1 rows2 : List Row}
    {cols1 cols2 : List String} {s1 s2 : List Row}
    (h1 : db u = .ok ⟨rows1, some cols1⟩) (h2 : db s = .ok ⟨rows2, some cols2⟩)
    (hs1 : pySorted rows1 = some s1) (hs2 : pySorted rows2 = some s2) :
    compare_results db u s = some (listRowEq s1 s2 && decide (cols1 = cols2)) := by
  unfold compare_results execute_query
  rw [h1, h2]
  simp [sortedOrEmpty_eq, hs1, hs2]

theorem compare_results_multiset {db : Db} {u s : String} {rows1 rows2 : List Row}
    {cols1 cols2 : List String}
    (h1 : db u = .ok ⟨rows1, some cols1⟩) (h2 : db s = .ok ⟨rows2, some cols2⟩)
    (hpc1 : ∀ a ∈ rows1, ∀ b ∈ rows1, (rowLt a b).isSome)
    (hpc2 : ∀ a ∈ rows2, ∀ b ∈ rows2, (rowLt a b).isSome) :
    compare_results db u s = some true ↔
      ((rows1.map canonRow : List Row) : Multiset Row) =
          ((rows2.map canonRow : List Row) : Multiset Row)
        ∧ cols1 = cols2 := by
  obtain ⟨s1, hs1, hp1, hq1⟩ := pySorted_spec hpc1
  obtain ⟨s2, hs2, hp2, hq2⟩ := pySorted_spec hpc2
  rw [compare_results_some h1 h2 hs1 hs2]
  have hcanon1 : ∀ r ∈ s1.map canonRow, canonRow r = r := by
    intro r hr
    obtain ⟨r0, _, rfl⟩ := List.mem_map.mp hr
    exact canonRow_canonRow r0
  constructor
  · intro h
    simp only [Option.some.injEq, Bool.and_eq_true, decide_eq_true_eq] at h
    have hmap : s1.map canonRow = s2.map canonRow := listRowEq_iff.mp h.1
    refine ⟨?_, h.2⟩
    rw [Multiset.coe_eq_coe]
    have hchain : (rows1.map canonRow).Perm (s1.map canonRow) :=
      (hp1.map canonRow).symm
    rw [hmap] at hchain
    exact hchain.trans (hp2.map canonRow)
  · rintro ⟨hms, hcols⟩
    have hperm12 : (rows1.map canonRow).Perm (rows2.map canonRow) :=
      Multiset.coe_eq_coe.mp hms
    have hmap : s1.map canonRow = s2.map canonRow := by
      apply sorted_perm_eq hcanon1
      · exact (hp1.map canonRow).trans (hperm12.trans (hp2.map canonRow).symm)
      · exact hq1.map canonRow fun a b hab => rowLe_canonRow hab
      · exact hq2.map canonRow fun a b hab => rowLe_canonRow hab
    rw [listRowEq_iff.mpr hmap, hcols]
    simp

theorem sessionGo_attemptsUsed_le (db : Db) (qd : Exercise) (level : Tier) :
    ∀ (inputs : List AttemptInput) (cs : CompletedSets) (attempt : ℕ),
      attempt ≤ max_attempts →
      (sessionGo db qd level cs attempt inputs).attemptsUsed ≤ max_attempts := by
  intro inputs
  induction inputs with
  | nil =>
    intro cs attempt h
    simp only [sessionGo]
    split <;> exact h
  | cons i rest ih =>
    intro cs attempt h
    simp only [sessionGo]
    by_cases hlt : attempt < max_attempts
    · rw [if_pos hlt]
      repeat' split
      all_goals first
        | exact ih _ _ hlt
        | exact hlt
    · rw [if_neg hlt]
      exact h

theorem sessionGo_completed_of_no_correct (db : Db) (qd : Exercise) (level : Tier) :
    ∀ (inputs : List AttemptInput) (cs : CompletedSets) (attempt : ℕ),
      (∀ i ∈ inputs, compare_results db i.query qd.solution ≠ some true) →
      (sessionGo db qd level cs attempt inputs).completed = cs := by
  intro inputs
  induction inputs with
  | nil =>
    intro cs attempt _
    simp only [sessionGo]
    split <;> rfl
  | cons i rest ih =>
    intro cs attempt h
    have hhead := h i (by simp)
    have htail : ∀ j ∈ rest, compare_results db j.query qd.solution ≠ some true :=
      fun j hj => h j (by simp [hj])
    simp only [sessionGo]
    by_cases hlt : attempt < max_attempts
    · rw [if_pos hlt]
      repeat' split
      all_goals first
        | rfl
        | exact ih _ _ htail
        | exact absurd (by assumption : compare_results db i.query qd.solution = some true) hhead
    · rw [if_neg hlt]

theorem dot_self_nonneg (v : List ℚ) : 0 ≤ dot v v := by
  induction v with
  | nil => simp [dot]
  | cons a as ih =>
    simp only [dot]
    have := mul_self_nonneg a
    linarith

theorem dot_eq_zero_of_sumSq_eq_zero {v : List ℚ} (h : sumSq v = 0)
    (w : List ℚ) : dot v w = 0 := by
  induction v generalizing w with
  | nil => cases w <;> simp [dot]
  | cons a as ih =>
    unfold sumSq at h
    simp only [dot] at h
    have hsq : a * a = 0 :=
      le_antisymm (by linarith [dot_self_nonneg as]) (mul_self_nonneg a)
    have ha0 : a = 0 := mul_self_eq_zero.mp hsq
    have has : sumSq as = 0 := by
      unfold sumSq
      linarith
    cases w with
    | nil => simp [dot]
    | cons b bs => simp [dot, ha0, ih has]

/-- Claim C1 (code evidence): the cosine division in
`calculate_query_similarity` is not guarded: whenever the embedding of the
first normalised query has zero norm (zero sum of squares), the denominator
is zero and the computed value is the IEEE NaN of `0.0 / 0.0`, not the
claimed defined result `0.0`. -/
theorem c1_zero_norm_yields_nan (embedder : Embedder) (query1 query2 : String)
    (h : sumSq (embedder query1.toLower.trim) = 0) :
    calculate_query_similarity embedder query1 query2 = SimResult.nan := by
  unfold calculate_query_similarity cosineSimilarity
  simp [h]

/-- Witness for C1: an embedder returning the zero vector. -/
theorem c1_witness :
    calculate_query_similarity (fun _ => [0]) "SELECT 1" "SELECT 2" =
      SimResult.nan :=
  c1_zero_norm_yields_nan (fun _ => [0]) "SELECT 1" "SELECT 2"
    (by simp [sumSq, dot])

/-- Claim C2 counterexample: on the integer result `1` versus the float
result `1.0` (same single column), `compare_results` answers `True`, while
the spec's stringified-multiset comparator distinguishes them — so the
claimed characterisation, and in particular that `1` and `1.0` are distinct,
is false of the code. -/
theorem c2_counterexample :
    compare_results dbNum "u" "s" = some true
      ∧ spec_equivalent (execute_query dbNum "u") (execute_query dbNum "s")
          = false := by
  decide

/-- Claim C2 (amended): for successfully executed results whose rows are
pairwise order-comparable, `compare_results` answers `True` iff the row
multisets are equal under Python value equality (canonical forms: numerically
equal `int`/`float` values are identified, so `1` and `1.0` are the SAME) and
the column sequences are equal position by position; stringification plays no
role. -/
theorem c2_value_multiset_characterisation (db : Db) (u s : String)
    (rows1 rows2 : List Row) (cols1 cols2 : List String)
    (h1 : db u = .ok ⟨rows1, some cols1⟩) (h2 : db s = .ok ⟨rows2, some cols2⟩)
    (hpc1 : pairwiseComparable rows1 = true)
    (hpc2 : pairwiseComparable rows2 = true) :
    compare_results db u s = some true ↔
      ((rows1.map canonRow : List Row) : Multiset Row) =
          ((rows2.map canonRow : List Row) : Multiset Row)
        ∧ cols1 = cols2 :=
  compare_results_multiset h1 h2 (pairwiseComparable_iff.mp hpc1)
    (pairwiseComparable_iff.mp hpc2)

/-- Witness for C2 at the `1` versus `1.0` input. -/
theorem c2_witness :
    compare_results dbNum "u" "s" = some true ↔
      (([[PyVal.int 1]].map canonRow : List Row) : Multiset Row) =
          (([[PyVal.real 1]].map canonRow : List Row) : Multiset Row)
        ∧ (["x"] : List String) = ["x"] :=
  c2_value_multiset_characterisation dbNum "u" "s" [[PyVal.int 1]]
    [[PyVal.real 1]] ["x"] ["x"] rfl rfl (by decide) (by decide)

/-- Claim C3 counterexample: with an advisor configured whose call fails,
`get_progressive_hint` returns the error string, which is not the
fallback-tier guidance the score (here `0.9`, near-miss tier) selects. -/
theorem c3_counterexample :
    get_progressive_hint (some badAdvisor) ex0 "SELECT 2" (9/10) 1 =
        "Error generating hint: API timeout"
      ∧ get_progressive_hint none ex0 "SELECT 2" (9/10) 1 =
        "You\x27re very close! Check your column names or table joins."
      ∧ ("Error generating hint: API timeout" : String) ≠
        "You\x27re very close! Check your column names or table joins." := by
  refine ⟨by decide, ?_, by decide⟩
  norm_num [get_progressive_hint]

/-- Claim C3 (amended): when the advisor is configured but its call fails,
`get_progressive_hint` still returns text rather than raising, but the text
is `"Error generating hint: " ++ str(e)`, not the fallback-tier guidance. -/
theorem c3_advisor_failure_returns_error_text (advisor : Advisor)
    (query_data : Exercise) (user_query : String) (similarity_score : ℚ)
    (attempt : ℕ) (e : String)
    (h : advisor (hintPrompt query_data user_query similarity_score attempt)
        = .error e) :
    get_progressive_hint (some advisor) query_data user_query similarity_score
        attempt = "Error generating hint: " ++ e := by
  simp only [get_progressive_hint]
  rw [h]

/-- Witness for C3. -/
theorem c3_witness :
    get_progressive_hint (some badAdvisor) ex0 "SELECT name" (1/2) 2 =
      "Error generating hint: " ++ "API timeout" :=
  c3_advisor_failure_returns_error_text badAdvisor ex0 "SELECT name" (1/2) 2
    "API timeout" rfl

/-- Claim C4: with no advisor configured, the fallback tier is a pure
function of the score with strict lower bounds and inclusive upper bounds:
`score > 0.8` near-miss; `0.6 < score ≤ 0.8` (including exactly `0.8`)
on-track; `0.4 < score ≤ 0.6` (including exactly `0.6`) partial-elements;
`score ≤ 0.4` (including exactly `0.4` and any negative score) the
off-track hint naming the exercise concepts. -/
theorem c4_fallback_tiers (query_data : Exercise)
    (user_query user_query' : String) (score : ℚ) (attempt attempt' : ℕ) :
    (get_progressive_hint none query_data user_query score attempt =
        get_progressive_hint none query_data user_query' score attempt')
    ∧ (score > 4/5 →
        get_progressive_hint none query_data user_query score attempt =
          "You\x27re very close! Check your column names or table joins.")
    ∧ (3/5 < score → score ≤ 4/5 →
        get_progressive_hint none query_data user_query score attempt =
          "You\x27re on the right track. Review the required columns and conditions.")
    ∧ (2/5 < score → score ≤ 3/5 →
        get_progressive_hint none query_data user_query score attempt =
          "You have some correct elements. Check the SQL clauses you\x27re using.")
    ∧ (score ≤ 2/5 →
        get_progressive_hint none query_data user_query score attempt =
          "Try a different approach. Remember the concepts: "
            ++ String.intercalate ", " query_data.concepts) := by
  refine ⟨rfl, fun h => ?_, fun h h' => ?_, fun h h' => ?_, fun h => ?_⟩ <;>
    · simp only [get_progressive_hint]
      split_ifs <;> first | rfl | linarith

/-- Witness for C4 at the boundary score exactly `0.8`: on-track, not
near-miss. -/
theorem c4_witness :
    get_progressive_hint none ex0 "SELECT id" (4/5) 1 =
      "You\x27re on the right track. Review the required columns and conditions." :=
  (c4_fallback_tiers ex0 "SELECT id" "SELECT id" (4/5) 1 1).2.2.1
    (by norm_num) (by norm_num)

/-- Claim C5: whenever either execution fails, `compare_results` returns
`False` — including when both fail identically. -/
theorem c5_failure_yields_false (db : Db) (user_query solution_query : String)
    (h : (execute_query db user_query).success = false ∨
        (execute_query db solution_query).success = false) :
    compare_results db user_query solution_query = some false := by
  unfold compare_results
  rcases h with h | h <;> simp [h]

/-- Witness for C5: both executions fail identically. -/
theorem c5_witness : compare_results dbFail "a" "b" = some false :=
  c5_failure_yields_false dbFail "a" "b" (Or.inl (by decide))

/-- Claim C6 counterexample: a successfully executed result whose rows mix
`NULL` and an integer in one column.  The row-permuted copy with identical
columns is NOT judged equivalent: `compare_results` raises `TypeError` from
`sorted` (modelled `none`) instead of returning a judgment. -/
theorem c6_counterexample :
    (execute_query dbNull "u").success = true
      ∧ (execute_query dbNull "s").success = true
      ∧ (execute_query dbNull "u").columns = (execute_query dbNull "s").columns
      ∧ ([[PyVal.int 1], [PyVal.null]] : List Row).Perm [[PyVal.null], [PyVal.int 1]]
      ∧ compare_results dbNull "u" "s" = none := by
  decide

/-- Claim C6 (amended): restricted to successfully executed results whose
rows are pairwise order-comparable (so `sorted` cannot raise), the comparator
is order-insensitive on rows — a permutation of the rows with equal column
sequences is judged equivalent — and order-sensitive on columns — a changed
column-name sequence is judged non-equivalent. -/
theorem c6_rows_insensitive_columns_sensitive (db : Db) (u s : String)
    (rows1 rows2 : List Row) (cols1 cols2 : List String)
    (h1 : db u = .ok ⟨rows1, some cols1⟩) (h2 : db s = .ok ⟨rows2, some cols2⟩)
    (hpc1 : pairwiseComparable rows1 = true)
    (hpc2 : pairwiseComparable rows2 = true) :
    (rows2.Perm rows1 → cols2 = cols1 → compare_results db u s = some true)
    ∧ (cols2 ≠ cols1 → compare_results db u s = some false) := by
  have hpc1' := pairwiseComparable_iff.mp hpc1
  have hpc2' := pairwiseComparable_iff.mp hpc2
  constructor
  · intro hperm hcols
    obtain ⟨s1, s2, hs1, hs2, heq⟩ := perm_pySorted_listRowEq hpc1' hperm
    rw [compare_results_some h1 h2 hs1 hs2, heq, hcols]
    simp
  · intro hcols
    obtain ⟨s1, hs1, -, -⟩ := pySorted_spec hpc1'
    obtain ⟨s2, hs2, -, -⟩ := pySorted_spec hpc2'
    rw [compare_results_some h1 h2 hs1 hs2]
    have hne : cols1 ≠ cols2 := fun hc => hcols hc.symm
    simp [hne]

/-- Witness for C6: the same two integer rows in swapped order are judged
equivalent. -/
theorem c6_witness : compare_results dbPerm "u" "s" = some true :=
  (c6_rows_insensitive_columns_sensitive dbPerm "u" "s"
      [[PyVal.int 1], [PyVal.int 2]] [[PyVal.int 2], [PyVal.int 1]] ["x"] ["x"]
      rfl rfl (by decide) (by decide)).1 (by decide) rfl

/-- Claim C7: `max_attempts` is the fixed constant 3; the loop counter of
`practice_session` never ends above it; and when the first three attempts
are executable but judged incorrect (with `try again` chosen at the two
intermediate menus), the session ends after exactly attempt 3 with the
solution revealed, not marked correct, and no further input consulted. -/
theorem c7_attempt_bound_and_exhaustion (db : Db) (query_data : Exercise)
    (level : Tier) (cs : CompletedSets) :
    max_attempts = 3
    ∧ (∀ inputs : List AttemptInput,
        (practice_session db query_data level cs inputs).attemptsUsed
          ≤ max_attempts)
    ∧ (∀ i1 i2 i3 : AttemptInput, ∀ rest : List AttemptInput,
        (execute_query db i1.query).success = true →
        compare_results db i1.query query_data.solution = some false →
        i1.choice ≠ "2" → i1.choice ≠ "3" →
        (execute_query db i2.query).success = true →
        compare_results db i2.query query_data.solution = some false →
        i2.choice ≠ "2" → i2.choice ≠ "3" →
        (execute_query db i3.query).success = true →
        compare_results db i3.query query_data.solution = some false →
        practice_session db query_data level cs (i1 :: i2 :: i3 :: rest) =
          ⟨3, true, false, cs, .finished⟩) := by
  refine ⟨rfl, ?_, ?_⟩
  · intro inputs
    exact sessionGo_attemptsUsed_le db query_data level inputs cs 0
      (by norm_num [max_attempts])
  · intro i1 i2 i3 rest hS1 hC1 hch1 hch1' hS2 hC2 hch2 hch2' hS3 hC3
    unfold practice_session
    simp [sessionGo, max_attempts, hS1, hC1, hch1, hch1', hS2, hC2, hch2,
      hch2', hS3, hC3]

/-- Witness for C7: three wrong-but-executable attempts against `dbSess`. -/
theorem c7_witness :
    practice_session dbSess ex0 Tier.beginner cs0
        [inputRetry, inputRetry, inputRetry] =
      ⟨3, true, false, cs0, SessionOutcome.finished⟩ :=
  (c7_attempt_bound_and_exhaustion dbSess ex0 Tier.beginner cs0).2.2
    inputRetry inputRetry inputRetry [] (by decide) (by decide) (by decide)
    (by decide) (by decide) (by decide) (by decide) (by decide) (by decide)
    (by decide)

/-- Claim C8: `execute_query` is total over its boundary: every database
outcome becomes a value — on an exception the 4-tuple
`(False, None, None, error text)`, on success
`(True, rows, column names, None)`. -/
theorem c8_execute_query_shape (db : Db) (query : String) :
    (∃ e, db query = .error e ∧
        execute_query db query = ⟨false, none, none, some e⟩)
    ∨ (∃ o, db query = .ok o ∧
        execute_query db query =
          ⟨true, some o.rows, some (o.description.getD []), none⟩) := by
  cases h : db query with
  | error e => exact Or.inl ⟨e, rfl, by simp [execute_query, h]⟩
  | ok o => exact Or.inr ⟨o, rfl, by simp [execute_query, h]⟩

/-- Claim C9: marking an exercise completed is idempotent, and one marking
grows the tier's completion count by at most 1. -/
theorem c9_mark_idempotent (cs : CompletedSets) (level : Tier) (exid : String) :
    (cs.mark level exid).mark level exid = cs.mark level exid
    ∧ (cs.mark level exid).count level ≤ cs.count level + 1 := by
  cases level <;>
    exact ⟨by simp [CompletedSets.mark, Finset.insert_idem],
      by simpa [CompletedSets.mark, CompletedSets.count, CompletedSets.get]
        using Finset.card_insert_le _ _⟩

/-- Claim C10: if no attempt of the session is judged equivalent to the
reference solution by the comparator (in particular when every execution
fails or every result differs), the completion sets of every tier are
unchanged. -/
theorem c10_completed_frame (db : Db) (query_data : Exercise) (level : Tier)
    (cs : CompletedSets) (inputs : List AttemptInput)
    (h : ∀ i ∈ inputs,
        compare_results db i.query query_data.solution ≠ some true) :
    (practice_session db query_data level cs inputs).completed = cs :=
  sessionGo_completed_of_no_correct db query_data level inputs cs 0 h

/-- Witness for C10: one wrong attempt leaves the sets untouched. -/
theorem c10_witness :
    (practice_session dbSess ex0 Tier.beginner cs0 [inputRetry]).completed
      = cs0 :=
  c10_completed_frame dbSess ex0 Tier.beginner cs0 [inputRetry] (by decide)
